import Mathlib

/-!
Verification development for the starquill cluster-topology visualizer
(webapp/src/components/ClusterVisualization.tsx, VisualizationContainer.jsx,
Modals/NodeModal.jsx (NodeRenderer), pages/WorkerNodes.jsx).

Coordinates are modelled as real numbers (the source computes with JS
numbers, including `Math.cos`/`Math.sin`/`Math.sqrt`), fallible code as
`Except`, and absent/optional JSON fields as `Option`.
-/

namespace Starquill

noncomputable section

/-- Certificate record of the cluster API: `{cert_type, status, last_updated?}`. -/
structure Certificate where
  status : String
  cert_type : String
  last_updated : Option String

/-- One entry of `clusterData.workers`: `{ip, certs?}` (certs is optional
in the `ClusterData` type of ClusterVisualization.tsx). -/
structure ClusterWorker where
  ip : String
  certs : Option (List Certificate)

/-- JS `clusterData.control_plane`: `{ip, certs}`. -/
structure ControlPlaneData where
  ip : String
  certs : List Certificate

/-- JS `clusterData.connectivity`: `{total_nodes, available_nodes, unreachable_nodes}`,
as accessed by pages/WorkerNodes.jsx. -/
structure Connectivity where
  total_nodes : Int
  available_nodes : Int
  unreachable_nodes : List String

/-- The payload of `GET /api/cluster` (`result.data`); `connectivity` is
optional per the documented endpoint shape. -/
structure ClusterData where
  control_plane : ControlPlaneData
  workers : List ClusterWorker
  connectivity : Option Connectivity

/-- JS `containerBounds`: the DOMRect of the visualization container
(`{left, top, width, height}` are the fields the code reads). -/
structure Bounds where
  left : ℝ
  top : ℝ
  width : ℝ
  height : ℝ

/-- JS `nodes.controlPlane`: `{x, y, ip}`. -/
structure Node where
  x : ℝ
  y : ℝ
  ip : String

/-- One entry of `nodes.workers`: `{id, x, y, ip}`. -/
structure WorkerNode where
  id : String
  x : ℝ
  y : ℝ
  ip : String

/-- The non-null part of the `nodes` state of ClusterVisualization. -/
structure NodesState where
  controlPlane : Node
  workers : List WorkerNode

/-- Default worker used only as the out-of-range value of `List.getD`. -/
def dfltWorker : WorkerNode := { id := "", x := 0, y := 0, ip := "" }

/-- JS `Math.ceil(Math.sqrt(n))` on a natural node count: the least `c` with
`n ≤ c^2`. -/
def ceilSqrt (n : ℕ) : ℕ :=
  if n = 0 then 0 else Nat.sqrt (n - 1) + 1

/-- JS `Math.min(containerBounds.width, containerBounds.height) * 0.3`. -/
def circleRadius (bounds : Bounds) : ℝ :=
  min bounds.width bounds.height * 0.3

/-- JS `containerBounds.width / 2`. -/
def centerX (bounds : Bounds) : ℝ := bounds.width / 2

/-- JS `containerBounds.height / 2`. -/
def centerY (bounds : Bounds) : ℝ := bounds.height / 2

/-- JS `(2 * Math.PI * index) / totalWorkers`. -/
def circleAngle (totalWorkers index : ℕ) : ℝ :=
  2 * Real.pi * index / totalWorkers

/-- JS `arrangeInCircle` (ClusterVisualization.tsx lines 260-284): control plane
at the bounds center, worker `index` on the circle of radius
`0.3 * min(width, height)` at angle `2π·index/totalWorkers`. -/
def arrangeInCircle (clusterData : ClusterData) (containerBounds : Bounds) :
    NodesState :=
  let totalWorkers := clusterData.workers.length
  let radius := circleRadius containerBounds
  let cX := centerX containerBounds
  let cY := centerY containerBounds
  { controlPlane := { x := cX, y := cY, ip := clusterData.control_plane.ip }
    workers := clusterData.workers.enum.map fun p =>
      let angle := circleAngle totalWorkers p.1
      { id := "worker" ++ toString (p.1 + 1)
        x := cX + radius * Real.cos angle
        y := cY + radius * Real.sin angle
        ip := p.2.ip } }

/-- JS `arrangeInGrid` (ClusterVisualization.tsx lines 286-312): `cols =
ceil(sqrt(n))`, cell sizes `(dimension - 2·100)/cols`, worker `index` at the
center of cell `(index / cols, index % cols)`, control plane at
`(width/2, 50)`. -/
def arrangeInGrid (clusterData : ClusterData) (containerBounds : Bounds) :
    NodesState :=
  let padding : ℝ := 100
  let totalWorkers := clusterData.workers.length
  let cols := ceilSqrt totalWorkers
  let cellWidth := (containerBounds.width - padding * 2) / cols
  let cellHeight := (containerBounds.height - padding * 2) / cols
  { controlPlane :=
      { x := containerBounds.width / 2
        y := padding / 2
        ip := clusterData.control_plane.ip }
    workers := clusterData.workers.enum.map fun p =>
      let row := p.1 / cols
      let col := p.1 % cols
      { id := "worker" ++ toString (p.1 + 1)
        x := padding + col * cellWidth + cellWidth / 2
        y := padding + row * cellHeight + cellHeight / 2
        ip := p.2.ip } }

/-- JS `arrangeRandomly` (ClusterVisualization.tsx lines 314-331); the stream of
`Math.random()` results (one pair per worker index) is passed in explicitly. -/
def arrangeRandomly (clusterData : ClusterData) (samples : ℕ → ℝ × ℝ)
    (containerBounds : Bounds) : NodesState :=
  let padding : ℝ := 100
  { controlPlane :=
      { x := containerBounds.width / 2
        y := containerBounds.height / 2
        ip := clusterData.control_plane.ip }
    workers := clusterData.workers.enum.map fun p =>
      { id := "worker" ++ toString (p.1 + 1)
        x := padding + (samples p.1).1 * (containerBounds.width - padding * 2)
        y := padding + (samples p.1).2 * (containerBounds.height - padding * 2)
        ip := p.2.ip } }

/-- The nodes-recompute effect (ClusterVisualization.tsx lines 199-231): when
cluster data is present and the bounds have truthy (nonzero) width and
height, `setNodes` is called with a freshly computed circle layout (the
effect body inlines the same formula as `arrangeInCircle`); otherwise the
`nodes` state is left untouched. -/
def recomputeNodes (clusterData : Option ClusterData) (containerBounds : Bounds)
    (prev : Option NodesState) : Option NodesState :=
  match clusterData with
  | none => prev
  | some cd =>
      if containerBounds.width ≠ 0 ∧ containerBounds.height ≠ 0 then
        let totalWorkers := cd.workers.length
        let radius := circleRadius containerBounds
        let cX := centerX containerBounds
        let cY := centerY containerBounds
        some
          { controlPlane := { x := cX, y := cY, ip := cd.control_plane.ip }
            workers := cd.workers.enum.map fun p =>
              let angle := circleAngle totalWorkers p.1
              { id := "worker" ++ toString (p.1 + 1)
                x := cX + radius * Real.cos angle
                y := cY + radius * Real.sin angle
                ip := p.2.ip } }
      else prev

/-- The three layout names accepted by `handleRearrange`. -/
inductive Layout
  | circle
  | grid
  | random

/-- JS `handleRearrange` (ClusterVisualization.tsx lines 333-347): dispatches to
one of the arrange functions, each of which calls `setNodes` with a fresh
layout (the previous `nodes` state is never read). -/
def handleRearrange (clusterData : ClusterData) (containerBounds : Bounds)
    (samples : ℕ → ℝ × ℝ) (layout : Layout) (_prev : Option NodesState) :
    Option NodesState :=
  match layout with
  | .circle => some (arrangeInCircle clusterData containerBounds)
  | .grid => some (arrangeInGrid clusterData containerBounds)
  | .random => some (arrangeRandomly clusterData samples containerBounds)

/-! ### Drag interaction controller (ClusterVisualization.tsx) -/

/-- JS `draggedNode.type`: `'control' | 'worker'`. -/
inductive NodeKind
  | control
  | worker
deriving DecidableEq

/-- The `draggedNode` state value: `{type, id}`. -/
structure DraggedRef where
  kind : NodeKind
  id : String
deriving DecidableEq

/-- JS `workerId || 'control'`: `null` and the empty string (both falsy)
give `'control'`. -/
def jsWorkerId (workerId : Option String) : String :=
  match workerId with
  | none => "control"
  | some s => if s = "" then "control" else s

/-- The drag-related component state of ClusterVisualization:
`nodes`, `draggedNode`, `dragOffset`. -/
structure CVState where
  nodes : Option NodesState
  draggedNode : Option DraggedRef
  dragOffset : ℝ × ℝ

/-- JS `handleDragStart` (ClusterVisualization.tsx lines 241-258):
unconditionally records the new `draggedNode` and the pointer offset from
the target's client rect; it never inspects the current `draggedNode`. -/
def handleDragStart (st : CVState) (nodeType : NodeKind)
    (workerId : Option String) (clientX clientY targetLeft targetTop : ℝ) :
    CVState :=
  { st with
    draggedNode := some { kind := nodeType, id := jsWorkerId workerId }
    dragOffset := (clientX - targetLeft, clientY - targetTop) }

/-- JS `Math.max(lo, Math.min(hi, v))`. -/
def jsClamp (lo hi v : ℝ) : ℝ := max lo (min hi v)

/-- JS `handleMouseMove` (ClusterVisualization.tsx lines 106-139, duplicated in
VisualizationContainer.jsx lines 33-67): while a drag is active, the new
position is `client - bounds origin - dragOffset`, each axis clamped with
padding 50, and it is written only into the dragged node. -/
def handleMouseMove (containerBounds : Bounds) (draggedNode : Option DraggedRef)
    (dragOffset : ℝ × ℝ) (clientX clientY : ℝ) (prev : Option NodesState) :
    Option NodesState :=
  match draggedNode with
  | none => prev
  | some d =>
      let padding : ℝ := 50
      let newX := jsClamp padding (containerBounds.width - padding)
        (clientX - containerBounds.left - dragOffset.1)
      let newY := jsClamp padding (containerBounds.height - padding)
        (clientY - containerBounds.top - dragOffset.2)
      match prev with
      | none => none
      | some ns =>
          match d.kind with
          | .control =>
              some { ns with controlPlane := { ns.controlPlane with x := newX, y := newY } }
          | .worker =>
              some { ns with workers := ns.workers.map fun w =>
                if w.id = d.id then { w with x := newX, y := newY } else w }

/-- Pointer events delivered to the controller. -/
inductive PEvent
  | down (nodeType : NodeKind) (workerId : Option String)
      (clientX clientY targetLeft targetTop : ℝ)
  | move (clientX clientY : ℝ)
  | up

/-- One step of the controller: `mousedown` runs `handleDragStart`,
document-level `mousemove` runs `handleMouseMove`, document-level `mouseup`
runs `setDraggedNode(null)`. -/
def pstep (containerBounds : Bounds) (st : CVState) (e : PEvent) : CVState :=
  match e with
  | .down nodeType workerId cx cy tl tt =>
      handleDragStart st nodeType workerId cx cy tl tt
  | .move cx cy =>
      { st with nodes := (handleMouseMove containerBounds st.draggedNode
          st.dragOffset cx cy st.nodes) }
  | .up => { st with draggedNode := none }

/-- Per-instance drag state of the NodeRenderer variant
(Modals/NodeModal.jsx lines 41-67): each rendered node owns its own
`draggedNode`/`dragOffset` pair, and its `handleDragStart` sets only them. -/
structure NRWorld where
  drag1 : Option DraggedRef
  drag2 : Option DraggedRef

/-- A `mousedown` on the second NodeRenderer instance: its `handleDragStart`
writes that instance's own state and leaves the first instance's untouched. -/
def nrDragStartSecond (w : NRWorld) (nodeType : NodeKind)
    (workerId : Option String) : NRWorld :=
  { w with drag2 := some { kind := nodeType, id := jsWorkerId workerId } }

/-! ### Document-level listener registration (ClusterVisualization.tsx
lines 187-195) -/

/-- Function references are modelled as allocation-ordered naturals; the
DOM's `(type, listener)` registry for one event type is the list of
registered references. -/
def addEventListenerL (l : List ℕ) (h : ℕ) : List ℕ :=
  if h ∈ l then l else l ++ [h]

/-- JS `removeEventListener`: removes the listener only when the very same
reference is registered, otherwise does nothing. -/
def removeEventListenerL (l : List ℕ) (h : ℕ) : List ℕ := l.erase h

/-- The document's listener registry plus the next unallocated closure
reference. -/
structure ListenerWorld where
  mousemove : List ℕ
  mouseup : List ℕ
  nextRef : ℕ

/-- The listener effect body: `document.addEventListener('mousemove',
handleMouseMove)` and `document.addEventListener('mouseup', () =>
setDraggedNode(null))` — the mouseup handler is a closure created freshly at
this evaluation. -/
def listenerEffectSetup (w : ListenerWorld) (handleMouseMoveRef : ℕ) :
    ListenerWorld :=
  { mousemove := addEventListenerL w.mousemove handleMouseMoveRef
    mouseup := addEventListenerL w.mouseup w.nextRef
    nextRef := w.nextRef + 1 }

/-- The listener effect cleanup: `removeEventListener('mousemove',
handleMouseMove)` with the same captured reference, but
`removeEventListener('mouseup', () => setDraggedNode(null))` with a closure
created freshly at cleanup time (a reference distinct from every
previously registered one). -/
def listenerEffectCleanup (w : ListenerWorld) (handleMouseMoveRef : ℕ) :
    ListenerWorld :=
  { mousemove := removeEventListenerL w.mousemove handleMouseMoveRef
    mouseup := removeEventListenerL w.mouseup w.nextRef
    nextRef := w.nextRef + 1 }

/-! ### Fetch and normalizer (pages/WorkerNodes.jsx, plus the single-read
fetch effect of ClusterVisualization.tsx lines 71-85) -/

/-- One record of the `GET /api/worker-nodes` payload (`result.data[]`). -/
structure WorkerDetail where
  id : String
  name : String
  ip : String
  status : String

/-- A worker-detail record after the join: enriched with `certs` and
`isReachable`. -/
structure JoinedWorker extends WorkerDetail where
  certs : List Certificate
  isReachable : Bool

/-- The join body for one worker (WorkerNodes.jsx lines 56-63): looks up the
cluster worker with the same ip, takes its `certs` (defaulting to `[]` when
the worker or its certs are absent), and reads
`connectivity.unreachable_nodes` — which throws a TypeError (modelled as
`Except.error`) when `connectivity` is absent from the payload. -/
def joinOne (clusterData : ClusterData) (worker : WorkerDetail) :
    Except Unit JoinedWorker :=
  match clusterData.connectivity with
  | none => .error ()
  | some conn =>
      let clusterWorker := clusterData.workers.find? fun w => w.ip = worker.ip
      .ok
        { toWorkerDetail := worker
          certs := ((clusterWorker.bind fun w => w.certs).getD [])
          isReachable := !(conn.unreachable_nodes.contains worker.ip) }

/-- JS `joinedWorkers` (WorkerNodes.jsx lines 56-63): the left-to-right map
over `workersResult.data`; a throw inside the callback aborts the whole
map. -/
def joinWorkers : List WorkerDetail → ClusterData → Except Unit (List JoinedWorker)
  | [], _ => .ok []
  | w :: ws, clusterData =>
      match joinOne clusterData w with
      | .error e => .error e
      | .ok j =>
          match joinWorkers ws clusterData with
          | .error e => .error e
          | .ok js => .ok (j :: js)

/-- The component state of WorkerNodes touched by `fetchData`. -/
structure WNState where
  workers : List JoinedWorker
  clusterData : Option ClusterData
  loading : Bool
  error : Option String

/-- The error message `fetchData` publishes on any failure. -/
def fetchErrorMsg : String := "Failed to load worker nodes and cluster data"

/-- JS `fetchData` (WorkerNodes.jsx lines 44-74): two concurrently awaited
reads; if either read (network or JSON decode) fails, or the join itself
throws, the catch block sets the error state and neither `workers` nor
`clusterData` is updated; `loading` is cleared in `finally`. -/
def fetchData (st : WNState) (workersRes : Except Unit (List WorkerDetail))
    (clusterRes : Except Unit ClusterData) : WNState :=
  match workersRes, clusterRes with
  | .ok workersData, .ok cd =>
      match joinWorkers workersData cd with
      | .ok joined =>
          { st with workers := joined, clusterData := some cd, loading := false }
      | .error _ => { st with error := some fetchErrorMsg, loading := false }
  | _, _ => { st with error := some fetchErrorMsg, loading := false }

/-- The fetch effect of ClusterVisualization.tsx lines 71-85: on success the
payload's `data` replaces `clusterData`; on any failure the catch block only
logs and the state is untouched. -/
def cvFetchData (res : Except Unit ClusterData) (prev : Option ClusterData) :
    Option ClusterData :=
  match res with
  | .ok cd => some cd
  | .error _ => prev

/-! ### Spec-level predicates under scrutiny -/

/-- The spec's merge-preserving recompute requirement: a snapshot/bounds
refresh keeps the pre-refresh position of every id present both before and
after. -/
def MergePreservingRecompute : Prop :=
  ∀ (cd : ClusterData) (bounds : Bounds) (prev next : NodesState),
    recomputeNodes (some cd) bounds (some prev) = some next →
    ∀ w ∈ prev.workers, ∀ w' ∈ next.workers,
      w.id = w'.id → w'.x = w.x ∧ w'.y = w.y

/-- The spec's single-drag exclusivity requirement: a `pointerDown` arriving
while a drag is active leaves the controller state unchanged. -/
def SecondPointerDownIgnored : Prop :=
  ∀ (bounds : Bounds) (st : CVState) (d : DraggedRef),
    st.draggedNode = some d →
    ∀ (nodeType : NodeKind) (workerId : Option String) (cx cy tl tt : ℝ),
      pstep bounds st (.down nodeType workerId cx cy tl tt) = st

/-- The spec's grid containment claim at full strength: for every snapshot
with at least one worker and *every* viewport bounds, all worker coordinates
lie strictly within `[padding, dimension - padding]`. -/
def GridWorkersStrictlyWithin : Prop :=
  ∀ (cd : ClusterData) (bounds : Bounds), 1 ≤ cd.workers.length →
    ∀ w ∈ (arrangeInGrid cd bounds).workers,
      100 < w.x ∧ w.x < bounds.width - 100 ∧
      100 < w.y ∧ w.y < bounds.height - 100

/-- The spec's claim that the normalizer copes with every documented payload
shape, in particular an absent optional `connectivity` field, without the
join throwing. -/
def NormalizerHandlesOptionalConnectivity : Prop :=
  ∀ (workersData : List WorkerDetail) (cd : ClusterData),
    ∃ joined, joinWorkers workersData cd = .ok joined

/-- The spec's claim that zero-sized viewport bounds make all nodes of the
deterministic layouts collapse to the origin. -/
def DegenerateBoundsCollapseToOrigin : Prop :=
  ∀ (cd : ClusterData) (bounds : Bounds),
    bounds.width = 0 ∨ bounds.height = 0 →
    ((arrangeInCircle cd bounds).controlPlane.x = 0 ∧
      (arrangeInCircle cd bounds).controlPlane.y = 0 ∧
      ∀ w ∈ (arrangeInCircle cd bounds).workers, w.x = 0 ∧ w.y = 0) ∧
    ((arrangeInGrid cd bounds).controlPlane.x = 0 ∧
      (arrangeInGrid cd bounds).controlPlane.y = 0 ∧
      ∀ w ∈ (arrangeInGrid cd bounds).workers, w.x = 0 ∧ w.y = 0)

/-- Raw (pre-clamp) x during a drag move: `clientX - bounds.left - offset.x`. -/
def dragRawX (containerBounds : Bounds) (dragOffset : ℝ × ℝ) (clientX : ℝ) : ℝ :=
  clientX - containerBounds.left - dragOffset.1

/-- Raw (pre-clamp) y during a drag move: `clientY - bounds.top - offset.y`. -/
def dragRawY (containerBounds : Bounds) (dragOffset : ℝ × ℝ) (clientY : ℝ) : ℝ :=
  clientY - containerBounds.top - dragOffset.2

/-- The clamped x a drag move writes. -/
def dragNewX (containerBounds : Bounds) (dragOffset : ℝ × ℝ) (clientX : ℝ) : ℝ :=
  jsClamp 50 (containerBounds.width - 50) (dragRawX containerBounds dragOffset clientX)

/-- The clamped y a drag move writes. -/
def dragNewY (containerBounds : Bounds) (dragOffset : ℝ × ℝ) (clientY : ℝ) : ℝ :=
  jsClamp 50 (containerBounds.height - 50) (dragRawY containerBounds dragOffset clientY)

end

/-! ### Helper lemmas -/

lemma arrangeInCircle_workers_length (cd : ClusterData) (bounds : Bounds) :
    (arrangeInCircle cd bounds).workers.length = cd.workers.length := by
  simp [arrangeInCircle]

lemma arrangeInGrid_workers_length (cd : ClusterData) (bounds : Bounds) :
    (arrangeInGrid cd bounds).workers.length = cd.workers.length := by
  simp [arrangeInGrid]

lemma arrangeInCircle_workers_getD (cd : ClusterData) (bounds : Bounds) (i : ℕ)
    (hi : i < cd.workers.length) :
    (arrangeInCircle cd bounds).workers.getD i dfltWorker =
      { id := "worker" ++ toString (i + 1)
        x := centerX bounds +
          circleRadius bounds * Real.cos (circleAngle cd.workers.length i)
        y := centerY bounds +
          circleRadius bounds * Real.sin (circleAngle cd.workers.length i)
        ip := (cd.workers.getD i { ip := "", certs := none }).ip } := by
  have hlen : i < (arrangeInCircle cd bounds).workers.length := by
    rw [arrangeInCircle_workers_length]; exact hi
  have hlen' : i < cd.workers.enum.length := by
    rw [List.enum_length]; exact hi
  rw [List.getD_eq_getElem _ _ hlen, List.getD_eq_getElem _ _ hi]
  simp [arrangeInCircle, List.getElem_map, List.getElem_enum]

lemma arrangeInGrid_workers_getD (cd : ClusterData) (bounds : Bounds) (i : ℕ)
    (hi : i < cd.workers.length) :
    (arrangeInGrid cd bounds).workers.getD i dfltWorker =
      { id := "worker" ++ toString (i + 1)
        x := 100 + ((i % ceilSqrt cd.workers.length : ℕ) : ℝ) *
            ((bounds.width - 100 * 2) / (ceilSqrt cd.workers.length : ℝ)) +
          ((bounds.width - 100 * 2) / (ceilSqrt cd.workers.length : ℝ)) / 2
        y := 100 + ((i / ceilSqrt cd.workers.length : ℕ) : ℝ) *
            ((bounds.height - 100 * 2) / (ceilSqrt cd.workers.length : ℝ)) +
          ((bounds.height - 100 * 2) / (ceilSqrt cd.workers.length : ℝ)) / 2
        ip := (cd.workers.getD i { ip := "", certs := none }).ip } := by
  have hlen : i < (arrangeInGrid cd bounds).workers.length := by
    rw [arrangeInGrid_workers_length]; exact hi
  rw [List.getD_eq_getElem _ _ hlen, List.getD_eq_getElem _ _ hi]
  simp [arrangeInGrid, List.getElem_map, List.getElem_enum]

lemma ceilSqrt_pos (n : ℕ) (hn : 1 ≤ n) : 1 ≤ ceilSqrt n := by
  unfold ceilSqrt
  rw [if_neg (by omega)]
  omega

lemma le_ceilSqrt_sq (n : ℕ) : n ≤ ceilSqrt n * ceilSqrt n := by
  unfold ceilSqrt
  by_cases h : n = 0
  · simp [h]
  · rw [if_neg h]
    have h2 := Nat.lt_succ_sqrt (n - 1)
    rw [Nat.succ_eq_add_one] at h2
    omega

lemma recomputeNodes_eq_circle (cd : ClusterData) (bounds : Bounds)
    (prev : Option NodesState)
    (hw : bounds.width ≠ 0) (hh : bounds.height ≠ 0) :
    recomputeNodes (some cd) bounds prev = some (arrangeInCircle cd bounds) := by
  simp only [recomputeNodes]
  rw [if_pos ⟨hw, hh⟩]
  rfl

lemma jsClamp_lt_lo (lo hi v : ℝ) (h : v < lo) : jsClamp lo hi v = lo := by
  unfold jsClamp
  exact max_eq_left (le_of_lt (lt_of_le_of_lt (min_le_right hi v) h))

lemma jsClamp_gt_hi (lo hi v : ℝ) (hlo : lo ≤ hi) (h : hi < v) :
    jsClamp lo hi v = hi := by
  unfold jsClamp
  rw [min_eq_left (le_of_lt h)]
  exact max_eq_right hlo

lemma jsClamp_id (lo hi v : ℝ) (h1 : lo ≤ v) (h2 : v ≤ hi) :
    jsClamp lo hi v = v := by
  unfold jsClamp
  rw [min_eq_right h2]
  exact max_eq_right h1

lemma jsClamp_mem (lo hi v : ℝ) (hlo : lo ≤ hi) :
    lo ≤ jsClamp lo hi v ∧ jsClamp lo hi v ≤ hi :=
  ⟨le_max_left _ _, max_le hlo (min_le_left _ _)⟩

/-! ### Claim theorems -/

/-- C1 (counterexample): the merge-preserving recompute invariant is false
on the code: the nodes-recompute effect performs a full fresh circle layout.
Concretely, with one worker (`worker1`, ip 10.0.0.2) dragged to (200, 200)
and an 800x600 refresh keeping the same id, the recomputed `worker1` sits at
(580, 300), not at its pre-refresh position. -/
theorem merge_preserving_recompute_false : ¬ MergePreservingRecompute := by
  intro h
  have hrec := recomputeNodes_eq_circle
    { control_plane := { ip := "10.0.0.1", certs := [] }
      workers := [{ ip := "10.0.0.2", certs := none }]
      connectivity := none }
    { left := 0, top := 0, width := 800, height := 600 }
    (some { controlPlane := { x := 400, y := 300, ip := "10.0.0.1" }
            workers := [{ id := "worker1", x := 200, y := 200, ip := "10.0.0.2" }] })
    (by norm_num) (by norm_num)
  have hw0 := arrangeInCircle_workers_getD
    { control_plane := { ip := "10.0.0.1", certs := [] }
      workers := [{ ip := "10.0.0.2", certs := none }]
      connectivity := none }
    { left := 0, top := 0, width := 800, height := 600 } 0 (by simp)
  have hlen : (arrangeInCircle
      { control_plane := { ip := "10.0.0.1", certs := [] }
        workers := [{ ip := "10.0.0.2", certs := none }]
        connectivity := none }
      { left := 0, top := 0, width := 800, height := 600 }).workers.length = 1 := by
    rw [arrangeInCircle_workers_length]
    rfl
  have hlt : 0 < (arrangeInCircle
      { control_plane := { ip := "10.0.0.1", certs := [] }
        workers := [{ ip := "10.0.0.2", certs := none }]
        connectivity := none }
      { left := 0, top := 0, width := 800, height := 600 }).workers.length := by
    omega
  have hmem : (arrangeInCircle
      { control_plane := { ip := "10.0.0.1", certs := [] }
        workers := [{ ip := "10.0.0.2", certs := none }]
        connectivity := none }
      { left := 0, top := 0, width := 800, height := 600 }).workers.getD 0 dfltWorker ∈
      (arrangeInCircle
        { control_plane := { ip := "10.0.0.1", certs := [] }
          workers := [{ ip := "10.0.0.2", certs := none }]
          connectivity := none }
        { left := 0, top := 0, width := 800, height := 600 }).workers := by
    rw [List.getD_eq_getElem _ _ hlt]
    exact List.getElem_mem _
  have h2 := h
    { control_plane := { ip := "10.0.0.1", certs := [] }
      workers := [{ ip := "10.0.0.2", certs := none }]
      connectivity := none }
    { left := 0, top := 0, width := 800, height := 600 }
    { controlPlane := { x := 400, y := 300, ip := "10.0.0.1" }
      workers := [{ id := "worker1", x := 200, y := 200, ip := "10.0.0.2" }] }
    _ hrec
    { id := "worker1", x := 200, y := 200, ip := "10.0.0.2" } (by simp)
    _ hmem (by rw [hw0]; decide)
  rw [hw0] at h2
  have hx := h2.1
  simp only [centerX, circleRadius, circleAngle] at hx
  rw [Nat.cast_zero, mul_zero, zero_div, Real.cos_zero] at hx
  norm_num [min_def] at hx

/-- C1 (amended): the nodes-recompute effect is a full fresh recompute, not
a merge: whenever cluster data is present and the bounds have nonzero width
and height, the new NodeVisual set is exactly the freshly computed circle
layout for every id — independent of the previous positions, so dragged
positions are not preserved; the previous positions survive only when the
guard fails (no cluster data, or a zero-sized dimension). -/
theorem recompute_is_full_fresh (cd : ClusterData) (bounds : Bounds)
    (prev prev' : Option NodesState)
    (hw : bounds.width ≠ 0) (hh : bounds.height ≠ 0) :
    recomputeNodes (some cd) bounds prev = some (arrangeInCircle cd bounds) ∧
    recomputeNodes (some cd) bounds prev
      = recomputeNodes (some cd) bounds prev' ∧
    recomputeNodes none bounds prev = prev := by
  refine ⟨recomputeNodes_eq_circle cd bounds prev hw hh, ?_, rfl⟩
  rw [recomputeNodes_eq_circle cd bounds prev hw hh,
    recomputeNodes_eq_circle cd bounds prev' hw hh]

/-- C1 witness: the amended theorem at a concrete snapshot, 800x600 bounds
and a concrete previous (dragged) NodeVisual set. -/
theorem recompute_is_full_fresh_witness :
    ({ left := 0, top := 0, width := 800, height := 600 } : Bounds).width ≠ 0 ∧
    ({ left := 0, top := 0, width := 800, height := 600 } : Bounds).height ≠ 0 ∧
    (recomputeNodes
        (some { control_plane := { ip := "10.0.0.1", certs := [] }
                workers := [{ ip := "10.0.0.2", certs := none }]
                connectivity := none })
        { left := 0, top := 0, width := 800, height := 600 }
        (some { controlPlane := { x := 400, y := 300, ip := "10.0.0.1" }
                workers := [{ id := "worker1", x := 200, y := 200, ip := "10.0.0.2" }] })
      = some (arrangeInCircle
          { control_plane := { ip := "10.0.0.1", certs := [] }
            workers := [{ ip := "10.0.0.2", certs := none }]
            connectivity := none }
          { left := 0, top := 0, width := 800, height := 600 }) ∧
      recomputeNodes
        (some { control_plane := { ip := "10.0.0.1", certs := [] }
                workers := [{ ip := "10.0.0.2", certs := none }]
                connectivity := none })
        { left := 0, top := 0, width := 800, height := 600 }
        (some { controlPlane := { x := 400, y := 300, ip := "10.0.0.1" }
                workers := [{ id := "worker1", x := 200, y := 200, ip := "10.0.0.2" }] })
        = recomputeNodes
          (some { control_plane := { ip := "10.0.0.1", certs := [] }
                  workers := [{ ip := "10.0.0.2", certs := none }]
                  connectivity := none })
          { left := 0, top := 0, width := 800, height := 600 } none ∧
      recomputeNodes none { left := 0, top := 0, width := 800, height := 600 }
        (some { controlPlane := { x := 400, y := 300, ip := "10.0.0.1" }
                workers := [{ id := "worker1", x := 200, y := 200, ip := "10.0.0.2" }] })
        = some { controlPlane := { x := 400, y := 300, ip := "10.0.0.1" }
                 workers := [{ id := "worker1", x := 200, y := 200, ip := "10.0.0.2" }] }) :=
  ⟨by norm_num, by norm_num,
    recompute_is_full_fresh
      { control_plane := { ip := "10.0.0.1", certs := [] }
        workers := [{ ip := "10.0.0.2", certs := none }]
        connectivity := none }
      { left := 0, top := 0, width := 800, height := 600 }
      (some { controlPlane := { x := 400, y := 300, ip := "10.0.0.1" }
              workers := [{ id := "worker1", x := 200, y := 200, ip := "10.0.0.2" }] })
      none (by norm_num) (by norm_num)⟩

/-- C2 (counterexample): the claim that a `pointerDown` arriving while a drag
is active is a no-op is false: `handleDragStart` never inspects the current
`draggedNode`, so a mousedown on worker2 while worker1 is being dragged
changes the controller state. -/
theorem second_pointer_down_ignored_false : ¬ SecondPointerDownIgnored := by
  intro h
  have h2 := h { left := 0, top := 0, width := 800, height := 600 }
    { nodes := none
      draggedNode := some { kind := .worker, id := "worker1" }
      dragOffset := (0, 0) }
    { kind := .worker, id := "worker1" } rfl .worker (some "worker2") 0 0 0 0
  have h4 := congrArg CVState.draggedNode h2
  simp [pstep, handleDragStart, jsWorkerId] at h4

/-- C2 (amended): the controller tracks at most one active drag (the
`draggedNode` state is a single optional reference), but a `pointerDown`
during an active drag is not ignored: it replaces the active drag with the
newly targeted node (last-down-wins) while leaving the node positions
untouched; in the per-node NodeRenderer variant a mousedown on a second
node leaves the first instance's drag state intact, so both nodes can be in
the dragging state at once. -/
theorem drag_start_replaces_active_drag (bounds : Bounds) (st : CVState)
    (nodeType : NodeKind) (workerId : Option String) (cx cy tl tt : ℝ)
    (w : NRWorld) :
    (pstep bounds st (.down nodeType workerId cx cy tl tt)).draggedNode
      = some { kind := nodeType, id := jsWorkerId workerId } ∧
    (pstep bounds st (.down nodeType workerId cx cy tl tt)).nodes = st.nodes ∧
    (nrDragStartSecond w nodeType workerId).drag1 = w.drag1 ∧
    (nrDragStartSecond w nodeType workerId).drag2
      = some { kind := nodeType, id := jsWorkerId workerId } :=
  ⟨rfl, rfl, rfl, rfl⟩

/-- C3: for a snapshot with at least one worker and positive bounds, the
circle layout puts the control plane at the bounds center, worker `i` at
angle `2π·i/n` on the circle of radius `0.3·min(width, height)` around that
center — hence at Euclidean distance exactly that radius — with distinct
workers at distinct angles, evenly spaced by `2π/n`. -/
theorem circle_layout_correct (cd : ClusterData) (bounds : Bounds)
    (hn : 1 ≤ cd.workers.length) (hw : 0 < bounds.width)
    (hh : 0 < bounds.height) :
    (arrangeInCircle cd bounds).controlPlane.x = bounds.width / 2 ∧
    (arrangeInCircle cd bounds).controlPlane.y = bounds.height / 2 ∧
    (arrangeInCircle cd bounds).workers.length = cd.workers.length ∧
    (∀ i, i < cd.workers.length →
      ((arrangeInCircle cd bounds).workers.getD i dfltWorker).x
        = bounds.width / 2 +
          circleRadius bounds * Real.cos (circleAngle cd.workers.length i) ∧
      ((arrangeInCircle cd bounds).workers.getD i dfltWorker).y
        = bounds.height / 2 +
          circleRadius bounds * Real.sin (circleAngle cd.workers.length i) ∧
      Real.sqrt
        ((((arrangeInCircle cd bounds).workers.getD i dfltWorker).x
            - bounds.width / 2) ^ 2 +
          (((arrangeInCircle cd bounds).workers.getD i dfltWorker).y
            - bounds.height / 2) ^ 2)
        = circleRadius bounds) ∧
    circleRadius bounds = 0.3 * min bounds.width bounds.height ∧
    (∀ i j, i < cd.workers.length → j < cd.workers.length → i ≠ j →
      circleAngle cd.workers.length i ≠ circleAngle cd.workers.length j) ∧
    (∀ i, circleAngle cd.workers.length (i + 1)
        - circleAngle cd.workers.length i
      = 2 * Real.pi / cd.workers.length) := by
  have hr0 : 0 ≤ circleRadius bounds := by
    unfold circleRadius
    have : (0:ℝ) < min bounds.width bounds.height := lt_min hw hh
    nlinarith
  have hn0 : (cd.workers.length : ℝ) ≠ 0 := Nat.cast_ne_zero.mpr (by omega)
  refine ⟨rfl, rfl, arrangeInCircle_workers_length cd bounds, ?_, ?_, ?_, ?_⟩
  · intro i hi
    rw [arrangeInCircle_workers_getD cd bounds i hi]
    refine ⟨rfl, rfl, ?_⟩
    have hx : centerX bounds
        + circleRadius bounds * Real.cos (circleAngle cd.workers.length i)
        - bounds.width / 2
        = circleRadius bounds * Real.cos (circleAngle cd.workers.length i) := by
      simp only [centerX]
      ring
    have hy : centerY bounds
        + circleRadius bounds * Real.sin (circleAngle cd.workers.length i)
        - bounds.height / 2
        = circleRadius bounds * Real.sin (circleAngle cd.workers.length i) := by
      simp only [centerY]
      ring
    rw [hx, hy]
    have hsq :
        (circleRadius bounds * Real.cos (circleAngle cd.workers.length i)) ^ 2 +
          (circleRadius bounds * Real.sin (circleAngle cd.workers.length i)) ^ 2
        = circleRadius bounds ^ 2 := by
      have hcs := Real.sin_sq_add_cos_sq (circleAngle cd.workers.length i)
      nlinarith
    rw [hsq]
    exact Real.sqrt_sq hr0
  · unfold circleRadius
    ring
  · intro i j hi hj hne heq
    unfold circleAngle at heq
    have h3 := congrArg (fun t => t * (cd.workers.length : ℝ)) heq
    simp only at h3
    rw [div_mul_cancel₀ _ hn0, div_mul_cancel₀ _ hn0] at h3
    have h2pi : (2 * Real.pi) ≠ 0 := by
      have := Real.pi_pos
      positivity
    have h4 := mul_left_cancel₀ h2pi h3
    exact hne (by exact_mod_cast h4)
  · intro i
    unfold circleAngle
    rw [div_sub_div_same]
    congr 1
    push_cast
    ring

/-- C3 witness: the spec's concrete scenario — one control plane
(10.0.0.1) and three workers (10.0.0.2-4) in an 800x600 viewport: center
(400, 300), radius 180 (= 0.3·600), worker angles 0, 2π/3 and 4π/3
(0°, 120°, 240°), and worker 1 at distance 180 from the center. -/
theorem circle_layout_correct_witness :
    1 ≤ ({ control_plane := { ip := "10.0.0.1", certs := [] }
           workers := [{ ip := "10.0.0.2", certs := none },
             { ip := "10.0.0.3", certs := none },
             { ip := "10.0.0.4", certs := none }]
           connectivity := none } : ClusterData).workers.length ∧
    (0:ℝ) < ({ left := 0, top := 0, width := 800, height := 600 } : Bounds).width ∧
    (0:ℝ) < ({ left := 0, top := 0, width := 800, height := 600 } : Bounds).height ∧
    (arrangeInCircle
      { control_plane := { ip := "10.0.0.1", certs := [] }
        workers := [{ ip := "10.0.0.2", certs := none },
          { ip := "10.0.0.3", certs := none },
          { ip := "10.0.0.4", certs := none }]
        connectivity := none }
      { left := 0, top := 0, width := 800, height := 600 }).controlPlane.x = 400 ∧
    (arrangeInCircle
      { control_plane := { ip := "10.0.0.1", certs := [] }
        workers := [{ ip := "10.0.0.2", certs := none },
          { ip := "10.0.0.3", certs := none },
          { ip := "10.0.0.4", certs := none }]
        connectivity := none }
      { left := 0, top := 0, width := 800, height := 600 }).controlPlane.y = 300 ∧
    circleRadius { left := 0, top := 0, width := 800, height := 600 } = 180 ∧
    circleAngle 3 0 = 0 ∧
    circleAngle 3 1 = 2 * Real.pi / 3 ∧
    circleAngle 3 2 = 4 * Real.pi / 3 ∧
    Real.sqrt
      ((((arrangeInCircle
            { control_plane := { ip := "10.0.0.1", certs := [] }
              workers := [{ ip := "10.0.0.2", certs := none },
                { ip := "10.0.0.3", certs := none },
                { ip := "10.0.0.4", certs := none }]
              connectivity := none }
            { left := 0, top := 0, width := 800, height := 600 }).workers.getD 1 dfltWorker).x
          - ({ left := 0, top := 0, width := 800, height := 600 } : Bounds).width / 2) ^ 2 +
        (((arrangeInCircle
            { control_plane := { ip := "10.0.0.1", certs := [] }
              workers := [{ ip := "10.0.0.2", certs := none },
                { ip := "10.0.0.3", certs := none },
                { ip := "10.0.0.4", certs := none }]
              connectivity := none }
            { left := 0, top := 0, width := 800, height := 600 }).workers.getD 1 dfltWorker).y
          - ({ left := 0, top := 0, width := 800, height := 600 } : Bounds).height / 2) ^ 2)
      = 180 := by
  have h := circle_layout_correct
    { control_plane := { ip := "10.0.0.1", certs := [] }
      workers := [{ ip := "10.0.0.2", certs := none },
        { ip := "10.0.0.3", certs := none },
        { ip := "10.0.0.4", certs := none }]
      connectivity := none }
    { left := 0, top := 0, width := 800, height := 600 }
    (by simp) (by norm_num) (by norm_num)
  have hrad : circleRadius { left := 0, top := 0, width := 800, height := 600 } = 180 := by
    rw [h.2.2.2.2.1]
    norm_num [min_def]
  refine ⟨by simp, by norm_num, by norm_num, ?_, ?_, hrad, ?_, ?_, ?_, ?_⟩
  · rw [h.1]
    norm_num
  · rw [h.2.1]
    norm_num
  · unfold circleAngle
    push_cast
    ring
  · unfold circleAngle
    push_cast
    ring
  · unfold circleAngle
    push_cast
    ring
  · have hdist := (h.2.2.2.1 1 (by simp)).2.2
    rw [hdist, hrad]

/-- C4 (counterexample): the strict containment part of the claim is false
for degenerate viewport bounds: with one worker and 0x0 bounds the cell
width is (0 - 200)/1 = -200, so worker1 lands at x = 100 - 100 = 0, which is
not strictly greater than the padding 100. -/
theorem grid_strictly_within_false : ¬ GridWorkersStrictlyWithin := by
  intro h
  have hlt : 0 < (arrangeInGrid
      { control_plane := { ip := "10.0.0.1", certs := [] }
        workers := [{ ip := "10.0.0.2", certs := none }]
        connectivity := none }
      { left := 0, top := 0, width := 0, height := 0 }).workers.length := by
    rw [arrangeInGrid_workers_length]
    simp
  have hmem : (arrangeInGrid
      { control_plane := { ip := "10.0.0.1", certs := [] }
        workers := [{ ip := "10.0.0.2", certs := none }]
        connectivity := none }
      { left := 0, top := 0, width := 0, height := 0 }).workers.getD 0 dfltWorker ∈
      (arrangeInGrid
        { control_plane := { ip := "10.0.0.1", certs := [] }
          workers := [{ ip := "10.0.0.2", certs := none }]
          connectivity := none }
        { left := 0, top := 0, width := 0, height := 0 }).workers := by
    rw [List.getD_eq_getElem _ _ hlt]
    exact List.getElem_mem _
  have h2 := h
    { control_plane := { ip := "10.0.0.1", certs := [] }
      workers := [{ ip := "10.0.0.2", certs := none }]
      connectivity := none }
    { left := 0, top := 0, width := 0, height := 0 } (by simp) _ hmem
  have hx : ((arrangeInGrid
      { control_plane := { ip := "10.0.0.1", certs := [] }
        workers := [{ ip := "10.0.0.2", certs := none }]
        connectivity := none }
      { left := 0, top := 0, width := 0, height := 0 }).workers.getD 0 dfltWorker).x
      = 0 := by
    rw [arrangeInGrid_workers_getD _ _ 0 (by simp)]
    have hc : ceilSqrt
        ({ control_plane := { ip := "10.0.0.1", certs := [] }
           workers := [{ ip := "10.0.0.2", certs := none }]
           connectivity := none } : ClusterData).workers.length = 1 := rfl
    rw [hc]
    norm_num
  rw [hx] at h2
  have := h2.1
  norm_num at this

/-- C4 (amended): grid rearrangement is idempotent (repeating it does not
change the state), the control plane sits at `(width/2, 50)`, and worker `i`
sits at the center of cell `(i / cols, i % cols)` with
`cols = ceil(sqrt(n))` and cell size `(dimension - 2·100)/cols`; when both
dimensions exceed the 200 taken by the two 100-unit paddings, every worker
coordinate lies strictly within `[100, dimension - 100]` on each axis. -/
theorem grid_layout_cells_and_bounds (cd : ClusterData) (bounds : Bounds)
    (samples : ℕ → ℝ × ℝ) (prev : Option NodesState)
    (hn : 1 ≤ cd.workers.length)
    (hw : 200 < bounds.width) (hh : 200 < bounds.height) :
    handleRearrange cd bounds samples .grid
        (handleRearrange cd bounds samples .grid prev)
      = handleRearrange cd bounds samples .grid prev ∧
    (arrangeInGrid cd bounds).controlPlane.x = bounds.width / 2 ∧
    (arrangeInGrid cd bounds).controlPlane.y = 50 ∧
    (arrangeInGrid cd bounds).workers.length = cd.workers.length ∧
    (∀ i, i < cd.workers.length →
      ((arrangeInGrid cd bounds).workers.getD i dfltWorker).x
        = 100 + ((i % ceilSqrt cd.workers.length : ℕ) : ℝ) *
            ((bounds.width - 100 * 2) / (ceilSqrt cd.workers.length : ℝ)) +
          ((bounds.width - 100 * 2) / (ceilSqrt cd.workers.length : ℝ)) / 2 ∧
      ((arrangeInGrid cd bounds).workers.getD i dfltWorker).y
        = 100 + ((i / ceilSqrt cd.workers.length : ℕ) : ℝ) *
            ((bounds.height - 100 * 2) / (ceilSqrt cd.workers.length : ℝ)) +
          ((bounds.height - 100 * 2) / (ceilSqrt cd.workers.length : ℝ)) / 2 ∧
      (100 < ((arrangeInGrid cd bounds).workers.getD i dfltWorker).x ∧
        ((arrangeInGrid cd bounds).workers.getD i dfltWorker).x
          < bounds.width - 100 ∧
        100 < ((arrangeInGrid cd bounds).workers.getD i dfltWorker).y ∧
        ((arrangeInGrid cd bounds).workers.getD i dfltWorker).y
          < bounds.height - 100)) := by
  have hc1 : 1 ≤ ceilSqrt cd.workers.length := ceilSqrt_pos _ hn
  have hcR : (0:ℝ) < (ceilSqrt cd.workers.length : ℝ) := by
    exact_mod_cast hc1
  have hcwpos : (0:ℝ) < (bounds.width - 100 * 2) / (ceilSqrt cd.workers.length : ℝ) :=
    div_pos (by linarith) hcR
  have hchpos : (0:ℝ) < (bounds.height - 100 * 2) / (ceilSqrt cd.workers.length : ℝ) :=
    div_pos (by linarith) hcR
  have hcw_total : (ceilSqrt cd.workers.length : ℝ) *
      ((bounds.width - 100 * 2) / (ceilSqrt cd.workers.length : ℝ))
      = bounds.width - 100 * 2 := by
    field_simp
  have hch_total : (ceilSqrt cd.workers.length : ℝ) *
      ((bounds.height - 100 * 2) / (ceilSqrt cd.workers.length : ℝ))
      = bounds.height - 100 * 2 := by
    field_simp
  refine ⟨rfl, rfl, by norm_num [arrangeInGrid],
    arrangeInGrid_workers_length cd bounds, ?_⟩
  intro i hi
  rw [arrangeInGrid_workers_getD cd bounds i hi]
  refine ⟨rfl, rfl, ?_, ?_, ?_, ?_⟩
  · have : (0:ℝ) ≤ ((i % ceilSqrt cd.workers.length : ℕ) : ℝ) *
        ((bounds.width - 100 * 2) / (ceilSqrt cd.workers.length : ℝ)) :=
      mul_nonneg (Nat.cast_nonneg _) (le_of_lt hcwpos)
    simp only
    linarith
  · have hcol : ((i % ceilSqrt cd.workers.length : ℕ) : ℝ) + 1
        ≤ (ceilSqrt cd.workers.length : ℝ) := by
      have := Nat.mod_lt i (show 0 < ceilSqrt cd.workers.length by omega)
      exact_mod_cast this
    have hmul : (((i % ceilSqrt cd.workers.length : ℕ) : ℝ) + 1) *
        ((bounds.width - 100 * 2) / (ceilSqrt cd.workers.length : ℝ))
        ≤ (ceilSqrt cd.workers.length : ℝ) *
          ((bounds.width - 100 * 2) / (ceilSqrt cd.workers.length : ℝ)) :=
      mul_le_mul_of_nonneg_right hcol (le_of_lt hcwpos)
    have hring : (((i % ceilSqrt cd.workers.length : ℕ) : ℝ) + 1) *
        ((bounds.width - 100 * 2) / (ceilSqrt cd.workers.length : ℝ))
        = ((i % ceilSqrt cd.workers.length : ℕ) : ℝ) *
            ((bounds.width - 100 * 2) / (ceilSqrt cd.workers.length : ℝ)) +
          ((bounds.width - 100 * 2) / (ceilSqrt cd.workers.length : ℝ)) := by
      ring
    simp only
    linarith [hcw_total, hcwpos]
  · have : (0:ℝ) ≤ ((i / ceilSqrt cd.workers.length : ℕ) : ℝ) *
        ((bounds.height - 100 * 2) / (ceilSqrt cd.workers.length : ℝ)) :=
      mul_nonneg (Nat.cast_nonneg _) (le_of_lt hchpos)
    simp only
    linarith
  · have hrowlt : i / ceilSqrt cd.workers.length < ceilSqrt cd.workers.length := by
      have hsq := le_ceilSqrt_sq cd.workers.length
      have : i < ceilSqrt cd.workers.length * ceilSqrt cd.workers.length := by
        omega
      exact Nat.div_lt_of_lt_mul this
    have hrow : ((i / ceilSqrt cd.workers.length : ℕ) : ℝ) + 1
        ≤ (ceilSqrt cd.workers.length : ℝ) := by
      exact_mod_cast hrowlt
    have hmul : (((i / ceilSqrt cd.workers.length : ℕ) : ℝ) + 1) *
        ((bounds.height - 100 * 2) / (ceilSqrt cd.workers.length : ℝ))
        ≤ (ceilSqrt cd.workers.length : ℝ) *
          ((bounds.height - 100 * 2) / (ceilSqrt cd.workers.length : ℝ)) :=
      mul_le_mul_of_nonneg_right hrow (le_of_lt hchpos)
    have hring : (((i / ceilSqrt cd.workers.length : ℕ) : ℝ) + 1) *
        ((bounds.height - 100 * 2) / (ceilSqrt cd.workers.length : ℝ))
        = ((i / ceilSqrt cd.workers.length : ℕ) : ℝ) *
            ((bounds.height - 100 * 2) / (ceilSqrt cd.workers.length : ℝ)) +
          ((bounds.height - 100 * 2) / (ceilSqrt cd.workers.length : ℝ)) := by
      ring
    simp only
    linarith [hch_total, hchpos]

/-- C4 witness: three workers in an 800x600 viewport: cols = 2, cell 300x200,
control plane at (400, 50), worker 1 at (250, 200) and worker 3 (row 1,
col 0) at (250, 400); repeating the grid rearrangement changes nothing. -/
theorem grid_layout_cells_and_bounds_witness :
    1 ≤ ({ control_plane := { ip := "10.0.0.1", certs := [] }
           workers := [{ ip := "10.0.0.2", certs := none },
             { ip := "10.0.0.3", certs := none },
             { ip := "10.0.0.4", certs := none }]
           connectivity := none } : ClusterData).workers.length ∧
    (200:ℝ) < ({ left := 0, top := 0, width := 800, height := 600 } : Bounds).width ∧
    (200:ℝ) < ({ left := 0, top := 0, width := 800, height := 600 } : Bounds).height ∧
    handleRearrange
        { control_plane := { ip := "10.0.0.1", certs := [] }
          workers := [{ ip := "10.0.0.2", certs := none },
            { ip := "10.0.0.3", certs := none },
            { ip := "10.0.0.4", certs := none }]
          connectivity := none }
        { left := 0, top := 0, width := 800, height := 600 } (fun _ => (0, 0)) .grid
        (handleRearrange
          { control_plane := { ip := "10.0.0.1", certs := [] }
            workers := [{ ip := "10.0.0.2", certs := none },
              { ip := "10.0.0.3", certs := none },
              { ip := "10.0.0.4", certs := none }]
            connectivity := none }
          { left := 0, top := 0, width := 800, height := 600 } (fun _ => (0, 0)) .grid none)
      = handleRearrange
        { control_plane := { ip := "10.0.0.1", certs := [] }
          workers := [{ ip := "10.0.0.2", certs := none },
            { ip := "10.0.0.3", certs := none },
            { ip := "10.0.0.4", certs := none }]
          connectivity := none }
        { left := 0, top := 0, width := 800, height := 600 } (fun _ => (0, 0)) .grid none ∧
    (arrangeInGrid
      { control_plane := { ip := "10.0.0.1", certs := [] }
        workers := [{ ip := "10.0.0.2", certs := none },
          { ip := "10.0.0.3", certs := none },
          { ip := "10.0.0.4", certs := none }]
        connectivity := none }
      { left := 0, top := 0, width := 800, height := 600 }).controlPlane.x = 400 ∧
    (arrangeInGrid
      { control_plane := { ip := "10.0.0.1", certs := [] }
        workers := [{ ip := "10.0.0.2", certs := none },
          { ip := "10.0.0.3", certs := none },
          { ip := "10.0.0.4", certs := none }]
        connectivity := none }
      { left := 0, top := 0, width := 800, height := 600 }).controlPlane.y = 50 ∧
    ((arrangeInGrid
      { control_plane := { ip := "10.0.0.1", certs := [] }
        workers := [{ ip := "10.0.0.2", certs := none },
          { ip := "10.0.0.3", certs := none },
          { ip := "10.0.0.4", certs := none }]
        connectivity := none }
      { left := 0, top := 0, width := 800, height := 600 }).workers.getD 0 dfltWorker).x = 250 ∧
    ((arrangeInGrid
      { control_plane := { ip := "10.0.0.1", certs := [] }
        workers := [{ ip := "10.0.0.2", certs := none },
          { ip := "10.0.0.3", certs := none },
          { ip := "10.0.0.4", certs := none }]
        connectivity := none }
      { left := 0, top := 0, width := 800, height := 600 }).workers.getD 0 dfltWorker).y = 200 ∧
    ((arrangeInGrid
      { control_plane := { ip := "10.0.0.1", certs := [] }
        workers := [{ ip := "10.0.0.2", certs := none },
          { ip := "10.0.0.3", certs := none },
          { ip := "10.0.0.4", certs := none }]
        connectivity := none }
      { left := 0, top := 0, width := 800, height := 600 }).workers.getD 2 dfltWorker).x = 250 ∧
    ((arrangeInGrid
      { control_plane := { ip := "10.0.0.1", certs := [] }
        workers := [{ ip := "10.0.0.2", certs := none },
          { ip := "10.0.0.3", certs := none },
          { ip := "10.0.0.4", certs := none }]
        connectivity := none }
      { left := 0, top := 0, width := 800, height := 600 }).workers.getD 2 dfltWorker).y = 400 := by
  have h := grid_layout_cells_and_bounds
    { control_plane := { ip := "10.0.0.1", certs := [] }
      workers := [{ ip := "10.0.0.2", certs := none },
        { ip := "10.0.0.3", certs := none },
        { ip := "10.0.0.4", certs := none }]
      connectivity := none }
    { left := 0, top := 0, width := 800, height := 600 } (fun _ => (0, 0)) none
    (by simp) (by norm_num) (by norm_num)
  have hc : ceilSqrt
      ({ control_plane := { ip := "10.0.0.1", certs := [] }
         workers := [{ ip := "10.0.0.2", certs := none },
           { ip := "10.0.0.3", certs := none },
           { ip := "10.0.0.4", certs := none }]
         connectivity := none } : ClusterData).workers.length = 2 := by
    show ceilSqrt 3 = 2
    have hs : Nat.sqrt 2 = 1 := (Nat.eq_sqrt.mpr (by norm_num)).symm
    unfold ceilSqrt
    rw [if_neg (by norm_num)]
    norm_num [hs]
  have h0 := h.2.2.2.2 0 (by simp)
  have h2 := h.2.2.2.2 2 (by simp)
  rw [hc] at h0 h2
  refine ⟨by simp, by norm_num, by norm_num, h.1, ?_, h.2.2.1, ?_, ?_, ?_, ?_⟩
  · rw [h.2.1]
    norm_num
  · rw [h0.1]
    norm_num
  · rw [h0.2.1]
    norm_num
  · rw [h2.1]
    norm_num
  · rw [h2.2.1]
    norm_num

/-- C5: a pointer move during an active drag writes position
`pointer - offset` relative to the bounds origin, each axis clamped with
`Math.max(50, Math.min(dimension - 50, ·))`, into the dragged NodeVisual
only; a raw coordinate below/above the interval lands exactly on the
nearest boundary (clamping, not wrapping), an in-range coordinate is kept
as is, and the written coordinate always lies in `[50, dimension - 50]`;
all other workers (and the control plane, for a worker drag) keep their
coordinates. -/
theorem drag_move_clamps_and_targets_only (bounds : Bounds) (d : DraggedRef)
    (offset : ℝ × ℝ) (clientX clientY : ℝ) (ns : NodesState)
    (hw : 100 ≤ bounds.width) (hh : 100 ≤ bounds.height) :
    (d.kind = .worker →
      handleMouseMove bounds (some d) offset clientX clientY (some ns)
        = some { ns with workers := ns.workers.map fun w =>
            if w.id = d.id then
              { w with x := dragNewX bounds offset clientX
                       y := dragNewY bounds offset clientY }
            else w }) ∧
    (d.kind = .control →
      handleMouseMove bounds (some d) offset clientX clientY (some ns)
        = some { ns with controlPlane :=
            { ns.controlPlane with
                x := dragNewX bounds offset clientX
                y := dragNewY bounds offset clientY } }) ∧
    (dragRawX bounds offset clientX < 50 →
      dragNewX bounds offset clientX = 50) ∧
    (bounds.width - 50 < dragRawX bounds offset clientX →
      dragNewX bounds offset clientX = bounds.width - 50) ∧
    (50 ≤ dragRawX bounds offset clientX →
      dragRawX bounds offset clientX ≤ bounds.width - 50 →
      dragNewX bounds offset clientX = dragRawX bounds offset clientX) ∧
    (50 ≤ dragNewX bounds offset clientX ∧
      dragNewX bounds offset clientX ≤ bounds.width - 50) ∧
    (dragRawY bounds offset clientY < 50 →
      dragNewY bounds offset clientY = 50) ∧
    (bounds.height - 50 < dragRawY bounds offset clientY →
      dragNewY bounds offset clientY = bounds.height - 50) ∧
    (50 ≤ dragRawY bounds offset clientY →
      dragRawY bounds offset clientY ≤ bounds.height - 50 →
      dragNewY bounds offset clientY = dragRawY bounds offset clientY) ∧
    (50 ≤ dragNewY bounds offset clientY ∧
      dragNewY bounds offset clientY ≤ bounds.height - 50) ∧
    (d.kind = .worker → ∀ w ∈ ns.workers, w.id ≠ d.id →
      w ∈ ((handleMouseMove bounds (some d) offset clientX clientY
          (some ns)).getD ns).workers ∧
        ((handleMouseMove bounds (some d) offset clientX clientY
          (some ns)).getD ns).controlPlane = ns.controlPlane) := by
  have hwlo : (50 : ℝ) ≤ bounds.width - 50 := by linarith
  have hhlo : (50 : ℝ) ≤ bounds.height - 50 := by linarith
  obtain ⟨k, i⟩ := d
  refine ⟨?_, ?_, ?_, ?_, ?_, ?_, ?_, ?_, ?_, ?_, ?_⟩
  · intro hk
    cases k with
    | control => exact absurd hk (by simp)
    | worker => rfl
  · intro hk
    cases k with
    | control => rfl
    | worker => exact absurd hk (by simp)
  · exact fun h => jsClamp_lt_lo _ _ _ h
  · exact fun h => jsClamp_gt_hi _ _ _ hwlo h
  · exact fun h1 h2 => jsClamp_id _ _ _ h1 h2
  · exact jsClamp_mem _ _ _ hwlo
  · exact fun h => jsClamp_lt_lo _ _ _ h
  · exact fun h => jsClamp_gt_hi _ _ _ hhlo h
  · exact fun h1 h2 => jsClamp_id _ _ _ h1 h2
  · exact jsClamp_mem _ _ _ hhlo
  · intro hk w hmem hne
    cases k with
    | control => exact absurd hk (by simp)
    | worker =>
        constructor
        · refine List.mem_map.mpr ⟨w, hmem, ?_⟩
          rw [if_neg hne]
        · rfl

/-- C5 witness: dragging `worker1` in an 800x600 container with offset
(10, 10) and the pointer at (1000, 20): the raw position (990, 10) is
clamped to (750, 50) and written only into `worker1`. -/
theorem drag_move_clamps_and_targets_only_witness :
    (100 : ℝ) ≤ ({ left := 0, top := 0, width := 800, height := 600 } : Bounds).width ∧
    (100 : ℝ) ≤ ({ left := 0, top := 0, width := 800, height := 600 } : Bounds).height ∧
    dragRawX { left := 0, top := 0, width := 800, height := 600 } (10, 10) 1000 = 990 ∧
    dragNewX { left := 0, top := 0, width := 800, height := 600 } (10, 10) 1000 = 750 ∧
    dragRawY { left := 0, top := 0, width := 800, height := 600 } (10, 10) 20 = 10 ∧
    dragNewY { left := 0, top := 0, width := 800, height := 600 } (10, 10) 20 = 50 ∧
    handleMouseMove { left := 0, top := 0, width := 800, height := 600 }
        (some { kind := .worker, id := "worker1" }) (10, 10) 1000 20
        (some { controlPlane := { x := 400, y := 300, ip := "10.0.0.1" }
                workers := [{ id := "worker1", x := 580, y := 300, ip := "10.0.0.2" },
                  { id := "worker2", x := 220, y := 300, ip := "10.0.0.3" }] })
      = some { controlPlane := { x := 400, y := 300, ip := "10.0.0.1" }
               workers := [{ id := "worker1", x := 750, y := 50, ip := "10.0.0.2" },
                 { id := "worker2", x := 220, y := 300, ip := "10.0.0.3" }] } := by
  have h := drag_move_clamps_and_targets_only
    { left := 0, top := 0, width := 800, height := 600 }
    { kind := .worker, id := "worker1" } (10, 10) 1000 20
    { controlPlane := { x := 400, y := 300, ip := "10.0.0.1" }
      workers := [{ id := "worker1", x := 580, y := 300, ip := "10.0.0.2" },
        { id := "worker2", x := 220, y := 300, ip := "10.0.0.3" }] }
    (by norm_num) (by norm_num)
  have hrx : dragRawX { left := 0, top := 0, width := 800, height := 600 }
      (10, 10) 1000 = 990 := by
    simp [dragRawX]
    norm_num
  have hry : dragRawY { left := 0, top := 0, width := 800, height := 600 }
      (10, 10) 20 = 10 := by
    simp [dragRawY]
    norm_num
  have hnx : dragNewX { left := 0, top := 0, width := 800, height := 600 }
      (10, 10) 1000 = 750 := by
    have h4 := h.2.2.2.1 (by rw [hrx]; norm_num)
    rw [h4]
    norm_num
  have hny : dragNewY { left := 0, top := 0, width := 800, height := 600 }
      (10, 10) 20 = 50 := by
    exact h.2.2.2.2.2.2.1 (by rw [hry]; norm_num)
  have heq := h.1 rfl
  refine ⟨by norm_num, by norm_num, hrx, hnx, hry, hny, ?_⟩
  rw [heq]
  simp [hnx, hny]

/-- C6: if either of the two concurrently awaited reads fails (network
error, timeout or malformed JSON, all surfacing as a thrown value), the
catch block publishes the persistent error message and neither `workers` nor
`clusterData` is updated, while `loading` is cleared; the single-read fetch
effect of ClusterVisualization leaves `clusterData` untouched on failure,
and with no cluster data the nodes-recompute effect creates no NodeVisual
set. `fetchData` is a total function, so no exception escapes. -/
theorem fetch_failure_atomic (st : WNState)
    (workersRes : Except Unit (List WorkerDetail))
    (clusterRes : Except Unit ClusterData)
    (prevCd : Option ClusterData) (bounds : Bounds)
    (prevNodes : Option NodesState)
    (h : workersRes = .error () ∨ clusterRes = .error ()) :
    (fetchData st workersRes clusterRes).workers = st.workers ∧
    (fetchData st workersRes clusterRes).clusterData = st.clusterData ∧
    (fetchData st workersRes clusterRes).error = some fetchErrorMsg ∧
    (fetchData st workersRes clusterRes).loading = false ∧
    cvFetchData (.error ()) prevCd = prevCd ∧
    recomputeNodes none bounds prevNodes = prevNodes := by
  rcases h with h | h <;> subst h
  · cases clusterRes <;> simp [fetchData, cvFetchData, recomputeNodes]
  · cases workersRes <;> simp [fetchData, cvFetchData, recomputeNodes]

/-- C6 witness: a concrete failing read of the worker-nodes endpoint. -/
theorem fetch_failure_atomic_witness :
    ((Except.error () : Except Unit (List WorkerDetail)) = .error () ∨
      (Except.ok { control_plane := { ip := "10.0.0.1", certs := [] }
                   workers := [], connectivity := none } :
        Except Unit ClusterData) = .error ()) ∧
    ((fetchData { workers := [], clusterData := none, loading := true, error := none }
        (.error ())
        (.ok { control_plane := { ip := "10.0.0.1", certs := [] }
               workers := [], connectivity := none })).workers = [] ∧
      (fetchData { workers := [], clusterData := none, loading := true, error := none }
        (.error ())
        (.ok { control_plane := { ip := "10.0.0.1", certs := [] }
               workers := [], connectivity := none })).clusterData = none ∧
      (fetchData { workers := [], clusterData := none, loading := true, error := none }
        (.error ())
        (.ok { control_plane := { ip := "10.0.0.1", certs := [] }
               workers := [], connectivity := none })).error = some fetchErrorMsg ∧
      (fetchData { workers := [], clusterData := none, loading := true, error := none }
        (.error ())
        (.ok { control_plane := { ip := "10.0.0.1", certs := [] }
               workers := [], connectivity := none })).loading = false ∧
      cvFetchData (.error ()) (none : Option ClusterData) = none ∧
      recomputeNodes none { left := 0, top := 0, width := 0, height := 0 }
        (none : Option NodesState) = none) :=
  ⟨Or.inl rfl,
    fetch_failure_atomic
      { workers := [], clusterData := none, loading := true, error := none }
      (.error ())
      (.ok { control_plane := { ip := "10.0.0.1", certs := [] }
             workers := [], connectivity := none })
      none { left := 0, top := 0, width := 0, height := 0 } none (Or.inl rfl)⟩

/-- C7 (counterexample): the normalizer does not cope with a missing
optional `connectivity` field: the join body dereferences
`connectivity.unreachable_nodes` unconditionally, so with one worker-detail
record and a cluster payload without `connectivity` the join throws
(surfacing as the catch-all fetch failure), instead of defaulting to an
unavailable display state. -/
theorem normalizer_optional_connectivity_false :
    ¬ NormalizerHandlesOptionalConnectivity := by
  intro h
  obtain ⟨joined, hj⟩ := h
    [{ id := "node-1", name := "Worker 1", ip := "10.0.0.2", status := "Ready" }]
    { control_plane := { ip := "10.0.0.1", certs := [] }
      workers := [{ ip := "10.0.0.2", certs := none }]
      connectivity := none }
  simp [joinWorkers, joinOne] at hj

/-- C7 (amended): when the cluster payload does carry a `connectivity`
object, the join succeeds and enriches every worker-detail record with the
certs of the cluster worker having the same ip (defaulting to `[]` when
that worker or its certs are absent) and with `isReachable` true exactly
when its ip is not listed in `connectivity.unreachable_nodes`; when
`connectivity` is absent the join throws and the whole fetch fails instead
of defaulting. -/
theorem normalizer_join_correct (workersData : List WorkerDetail)
    (cd : ClusterData) (conn : Connectivity)
    (hconn : cd.connectivity = some conn) :
    joinWorkers workersData cd
      = .ok (workersData.map fun w =>
          { toWorkerDetail := w
            certs := ((cd.workers.find? fun cw => cw.ip = w.ip).bind
              fun cw => cw.certs).getD []
            isReachable := !(conn.unreachable_nodes.contains w.ip) }) ∧
    ∀ j ∈ (workersData.map fun w =>
        ({ toWorkerDetail := w
           certs := ((cd.workers.find? fun cw => cw.ip = w.ip).bind
             fun cw => cw.certs).getD []
           isReachable := !(conn.unreachable_nodes.contains w.ip) } :
          JoinedWorker)),
      (j.isReachable = true ↔ j.ip ∉ conn.unreachable_nodes) := by
  constructor
  · induction workersData with
    | nil => simp [joinWorkers]
    | cons w ws ih => simp [joinWorkers, joinOne, hconn, ih]
  · intro j hj
    obtain ⟨w, hw, rfl⟩ := List.mem_map.mp hj
    simp

/-- C7 witness: two worker-detail records joined against a cluster payload
whose connectivity lists 10.0.0.4 as unreachable: 10.0.0.2 gets the matched
cluster worker's certs and is reachable, 10.0.0.4 matches no cluster worker
(certs default to `[]`) and is unreachable. -/
theorem normalizer_join_correct_witness :
    ({ control_plane := { ip := "10.0.0.1", certs := [] },
       workers := [{ ip := "10.0.0.2",
                     certs := some [{ status := "Distributed",
                                      cert_type := "kubelet",
                                      last_updated := none }] }],
       connectivity := some { total_nodes := 3, available_nodes := 2,
                              unreachable_nodes := ["10.0.0.4"] } } :
      ClusterData).connectivity
      = some { total_nodes := 3, available_nodes := 2,
               unreachable_nodes := ["10.0.0.4"] } ∧
    joinWorkers
      [{ id := "node-1", name := "Worker 1", ip := "10.0.0.2", status := "Ready" },
        { id := "node-2", name := "Worker 2", ip := "10.0.0.4", status := "NotReady" }]
      { control_plane := { ip := "10.0.0.1", certs := [] },
        workers := [{ ip := "10.0.0.2",
                      certs := some [{ status := "Distributed",
                                       cert_type := "kubelet",
                                       last_updated := none }] }],
        connectivity := some { total_nodes := 3, available_nodes := 2,
                               unreachable_nodes := ["10.0.0.4"] } }
      = .ok
        [{ id := "node-1", name := "Worker 1", ip := "10.0.0.2", status := "Ready",
           certs := [{ status := "Distributed", cert_type := "kubelet",
                       last_updated := none }],
           isReachable := true },
          { id := "node-2", name := "Worker 2", ip := "10.0.0.4", status := "NotReady",
            certs := [],
            isReachable := false }] := by
  refine ⟨rfl, ?_⟩
  rw [(normalizer_join_correct
    [{ id := "node-1", name := "Worker 1", ip := "10.0.0.2", status := "Ready" },
      { id := "node-2", name := "Worker 2", ip := "10.0.0.4", status := "NotReady" }]
    { control_plane := { ip := "10.0.0.1", certs := [] },
      workers := [{ ip := "10.0.0.2",
                    certs := some [{ status := "Distributed",
                                     cert_type := "kubelet",
                                     last_updated := none }] }],
      connectivity := some { total_nodes := 3, available_nodes := 2,
                             unreachable_nodes := ["10.0.0.4"] } }
    { total_nodes := 3, available_nodes := 2, unreachable_nodes := ["10.0.0.4"] }
    rfl).1]
  simp [List.find?]

/-- C8 (counterexample): the collapse-to-origin part of the claim is false:
with zero width but height 600 the circle layout puts the control plane at
the bounds center (0, 300), not at the origin. -/
theorem degenerate_collapse_to_origin_false :
    ¬ DegenerateBoundsCollapseToOrigin := by
  intro h
  have h2 := (h
    { control_plane := { ip := "10.0.0.1", certs := [] },
      workers := [], connectivity := none }
    { left := 0, top := 0, width := 0, height := 600 } (Or.inl rfl)).1.2.1
  have h3 : (arrangeInCircle
      { control_plane := { ip := "10.0.0.1", certs := [] },
        workers := [], connectivity := none }
      { left := 0, top := 0, width := 0, height := 600 }).controlPlane.y
      = 300 := by
    show centerY { left := 0, top := 0, width := 0, height := 600 } = 300
    unfold centerY
    norm_num
  rw [h3] at h2
  norm_num at h2

/-- C8 (amended): a snapshot with zero workers never evaluates the
per-worker angle/cell division — every layout simply produces an empty
worker list (no fault; the division is defined-but-unused) — and fully
zero-sized bounds yield degenerate but well-defined output: the circle
layout collapses all nodes to the bounds center, which is the origin only
when both dimensions are zero (with a single zero dimension the nodes sit
at the center of the nonzero one), while the grid layout keeps its control
plane at `(width/2, 50)`; a zero-sized dimension also makes the
nodes-recompute guard fail, so the previous NodeVisual set is kept
unchanged rather than faulting. -/
theorem degenerate_inputs_safe (cd0 cd : ClusterData) (bounds bz : Bounds)
    (samples : ℕ → ℝ × ℝ) (prev : Option NodesState)
    (h0 : cd0.workers = []) (hw : bz.width = 0) (hh : bz.height = 0) :
    (arrangeInCircle cd0 bounds).workers = [] ∧
    (arrangeInGrid cd0 bounds).workers = [] ∧
    (arrangeRandomly cd0 samples bounds).workers = [] ∧
    (arrangeInCircle cd bz).controlPlane.x = 0 ∧
    (arrangeInCircle cd bz).controlPlane.y = 0 ∧
    (∀ w ∈ (arrangeInCircle cd bz).workers, w.x = 0 ∧ w.y = 0) ∧
    (arrangeInGrid cd bz).controlPlane.x = 0 ∧
    (arrangeInGrid cd bz).controlPlane.y = 50 ∧
    recomputeNodes (some cd) bz prev = prev := by
  refine ⟨by simp [arrangeInCircle, h0], by simp [arrangeInGrid, h0],
    by simp [arrangeRandomly, h0], ?_, ?_, ?_, ?_, ?_, ?_⟩
  · show centerX bz = 0
    unfold centerX
    rw [hw]
    norm_num
  · show centerY bz = 0
    unfold centerY
    rw [hh]
    norm_num
  · intro w hmem
    obtain ⟨p, hp, rfl⟩ := List.mem_map.mp hmem
    have hr : circleRadius bz = 0 := by
      unfold circleRadius
      rw [hw, hh]
      norm_num
    constructor
    · show centerX bz + circleRadius bz * Real.cos
        (circleAngle cd.workers.length p.1) = 0
      unfold centerX
      rw [hw, hr]
      norm_num
    · show centerY bz + circleRadius bz * Real.sin
        (circleAngle cd.workers.length p.1) = 0
      unfold centerY
      rw [hh, hr]
      norm_num
  · show bz.width / 2 = 0
    rw [hw]
    norm_num
  · show (100 : ℝ) / 2 = 50
    norm_num
  · simp only [recomputeNodes]
    rw [if_neg]
    intro hc
    exact hc.1 hw

/-- C8 witness: the amended theorem at an empty snapshot, a one-worker
snapshot, 800x600 bounds and fully zero bounds. -/
theorem degenerate_inputs_safe_witness :
    ({ control_plane := { ip := "10.0.0.1", certs := [] },
       workers := [], connectivity := none } : ClusterData).workers = [] ∧
    ({ left := 0, top := 0, width := 0, height := 0 } : Bounds).width = 0 ∧
    ({ left := 0, top := 0, width := 0, height := 0 } : Bounds).height = 0 ∧
    ((arrangeInCircle
        { control_plane := { ip := "10.0.0.1", certs := [] },
          workers := [], connectivity := none }
        { left := 0, top := 0, width := 800, height := 600 }).workers = [] ∧
      (arrangeInGrid
        { control_plane := { ip := "10.0.0.1", certs := [] },
          workers := [], connectivity := none }
        { left := 0, top := 0, width := 800, height := 600 }).workers = [] ∧
      (arrangeRandomly
        { control_plane := { ip := "10.0.0.1", certs := [] },
          workers := [], connectivity := none } (fun _ => (0, 0))
        { left := 0, top := 0, width := 800, height := 600 }).workers = [] ∧
      (arrangeInCircle
        { control_plane := { ip := "10.0.0.1", certs := [] },
          workers := [{ ip := "10.0.0.2", certs := none }], connectivity := none }
        { left := 0, top := 0, width := 0, height := 0 }).controlPlane.x = 0 ∧
      (arrangeInCircle
        { control_plane := { ip := "10.0.0.1", certs := [] },
          workers := [{ ip := "10.0.0.2", certs := none }], connectivity := none }
        { left := 0, top := 0, width := 0, height := 0 }).controlPlane.y = 0 ∧
      (∀ w ∈ (arrangeInCircle
          { control_plane := { ip := "10.0.0.1", certs := [] },
            workers := [{ ip := "10.0.0.2", certs := none }], connectivity := none }
          { left := 0, top := 0, width := 0, height := 0 }).workers,
        w.x = 0 ∧ w.y = 0) ∧
      (arrangeInGrid
        { control_plane := { ip := "10.0.0.1", certs := [] },
          workers := [{ ip := "10.0.0.2", certs := none }], connectivity := none }
        { left := 0, top := 0, width := 0, height := 0 }).controlPlane.x = 0 ∧
      (arrangeInGrid
        { control_plane := { ip := "10.0.0.1", certs := [] },
          workers := [{ ip := "10.0.0.2", certs := none }], connectivity := none }
        { left := 0, top := 0, width := 0, height := 0 }).controlPlane.y = 50 ∧
      recomputeNodes
        (some { control_plane := { ip := "10.0.0.1", certs := [] },
                workers := [{ ip := "10.0.0.2", certs := none }],
                connectivity := none })
        { left := 0, top := 0, width := 0, height := 0 }
        (none : Option NodesState) = none) :=
  ⟨rfl, rfl, rfl,
    degenerate_inputs_safe
      { control_plane := { ip := "10.0.0.1", certs := [] },
        workers := [], connectivity := none }
      { control_plane := { ip := "10.0.0.1", certs := [] },
        workers := [{ ip := "10.0.0.2", certs := none }], connectivity := none }
      { left := 0, top := 0, width := 800, height := 600 }
      { left := 0, top := 0, width := 0, height := 0 }
      (fun _ => (0, 0)) none rfl rfl rfl⟩

/-- C9 (code bug): one mount of the listener effect followed by its cleanup.
The mousemove listener (registered and removed with the same captured
`handleMouseMove` reference) is detached, but the cleanup passes a freshly
created arrow closure to `removeEventListener('mouseup', ...)`, which is not
the registered reference, so the registered mouseup listener (reference 1)
survives the cleanup — handlers leak across successive drags and outlive
teardown, contradicting the spec's required listener hygiene. -/
theorem mouseup_listener_leaks :
    (listenerEffectCleanup
      (listenerEffectSetup { mousemove := [], mouseup := [], nextRef := 1 } 0)
      0).mousemove = [] ∧
    (listenerEffectCleanup
      (listenerEffectSetup { mousemove := [], mouseup := [], nextRef := 1 } 0)
      0).mouseup = [1] := by
  constructor <;> rfl

/-- C10: a user-invoked rearrange ignores the previous `nodes` state
entirely — the result is the same for any two previous states — and each
strategy publishes a freshly computed layout for every node (control plane
and all workers), so positions previously set by dragging are overwritten
and never merged. -/
theorem rearrange_recomputes_all (cd : ClusterData) (bounds : Bounds)
    (samples : ℕ → ℝ × ℝ) (layout : Layout) (prev prev' : Option NodesState) :
    handleRearrange cd bounds samples layout prev
      = handleRearrange cd bounds samples layout prev' ∧
    handleRearrange cd bounds samples Layout.circle prev
      = some (arrangeInCircle cd bounds) ∧
    handleRearrange cd bounds samples Layout.grid prev
      = some (arrangeInGrid cd bounds) ∧
    handleRearrange cd bounds samples Layout.random prev
      = some (arrangeRandomly cd samples bounds) := by
  refine ⟨?_, rfl, rfl, rfl⟩
  cases layout <;> rfl

end Starquill
